import Mathlib

/-!
Verification of the cruise-control plant model and scenario script
(`main.py`): vehicle dynamics, engine torque model, exogenous signals,
and the trim (equilibrium) condition of the closed loop.

Real numbers stand in for Python floats; Python semantics that matter to
the claims (truncating `int()` conversion, negative list indexing,
`copysign`, `np.clip`) are embedded explicitly.
-/

namespace CruiseControl

/-- Vehicle parameters with the default values of `vehicle_update` /
`motor_torque` (`params.get` with defaults applied for absent keys). -/
structure VehicleParams where
  m : ℝ := 1000
  g : ℝ := 9.8
  k : ℝ := 0.01
  alpha : List ℝ := [40, 25, 16, 12, 10]
  Tm : ℝ := 190
  omega_m : ℝ := 420
  beta : ℝ := 0.4

/-- The default parameter dictionary (`params={}` in the source). -/
def defaultParams : VehicleParams := {}

noncomputable section

/-- `np.clip(x, 0, 1)`. -/
def clip01 (x : ℝ) : ℝ := max 0 (min x 1)

/-- Python `int()` conversion of a float: truncation toward zero. -/
def pyInt (x : ℝ) : ℤ := if 0 ≤ x then ⌊x⌋ else ⌈x⌉

/-- Python list indexing `l[i]`: nonnegative indices from the front,
negative indices from the end, `IndexError` (here `none`) otherwise. -/
def pyIdx (l : List ℝ) (i : ℤ) : Option ℝ :=
  if 0 ≤ i then l.get? i.toNat
  else if 0 ≤ i + l.length then l.get? (i + l.length).toNat
  else none

/-- `copysign(1, x)` on reals: `+1` for `x ≥ 0` (including `x = 0`),
`-1` for `x < 0`. -/
def copysign1 (x : ℝ) : ℝ := if x < 0 then -1 else 1

/-- `motor_torque(omega, params)`:
`np.clip(Tm * (1 - beta * (omega/omega_m - 1)**2), 0, None)`. -/
def motor_torque (omega : ℝ) (p : VehicleParams) : ℝ :=
  max 0 (p.Tm * (1 - p.beta * (omega / p.omega_m - 1) ^ 2))

/-- Body of `vehicle_update` after the gear-ratio lookup: `a` is the value
`alpha[int(gear)-1]` read from the parameter list. -/
def vehicle_accel (v u0 theta a : ℝ) (p : VehicleParams) : ℝ :=
  let throttle := clip01 u0
  let omega := a * v
  let F := a * motor_torque omega p * throttle
  let Fg := p.m * p.g * Real.sin theta
  let Fr := p.m * p.g * p.k * copysign1 v
  let Fd := Fg + Fr
  (F - Fd) / p.m

/-- `vehicle_update(t, x, u, params)` where `x = [v]` and
`u = [u0, u1, u2] = [throttle, gear, road_slope]`.  The gear-ratio lookup
`alpha[int(gear)-1]` follows Python indexing; an `IndexError` is `none`. -/
def vehicle_update (t x u0 u1 u2 : ℝ) (p : VehicleParams) : Option ℝ :=
  (pyIdx p.alpha (pyInt u1 - 1)).map fun a => vehicle_accel x u0 u2 a p

end

/-! ### Exogenous signals of the scripted scenario -/

noncomputable section

/-- `T = np.linspace(0, 25, 151)`. -/
def T (i : Fin 151) : ℝ := 25 * (i.val : ℝ) / 150

/-- `vref = 20 * np.ones(T.shape)`. -/
def vref (i : Fin 151) : ℝ := 20

/-- `gear = 4 * np.ones(T.shape)`. -/
def gear (i : Fin 151) : ℝ := 4

/-- `theta_hill`: `0` for `t ≤ 5`, `4/180·π·(t-5)` for `5 < t ≤ 6`,
`4/180·π` for `t > 6`, sampled on the grid `T`. -/
def theta_hill (i : Fin 151) : ℝ :=
  if T i ≤ 5 then 0
  else if T i ≤ 6 then 4 / 180 * Real.pi * (T i - 5)
  else 4 / 180 * Real.pi

end

/-! ### Closed-loop trim condition -/

/-- `Kp = 0.5`, the proportional gain of the source script. -/
noncomputable def Kp : ℝ := 0.5

/-- `Ki = 0.1`, the integral gain of the source script. -/
noncomputable def Ki : ℝ := 0.1

/-- Modelled from the spec: the state derivative of a minimal state-space
realization of the controller transfer function
`(Kp·s + Ki) / (s + 0.01·Ki/Kp)` (§4.2).  The realization itself is
produced by the external `ct.tf2io` library call, which is not part of
this repository; any realization of the same transfer function has the
same input/output trim.  State `xc`, input `e` (the tracking error). -/
noncomputable def controller_deriv (xc e : ℝ) : ℝ :=
  -(0.01 * Ki / Kp) * xc + e

/-- Modelled from the spec: the output map of the same realization;
`C·(sI−A)⁻¹·B + D` recovers `(Kp·s + Ki)/(s + 0.01·Ki/Kp)`. -/
noncomputable def controller_out (xc e : ℝ) : ℝ :=
  (Ki - Kp * (0.01 * Ki / Kp)) * xc + Kp * e

/-- Modelled from the spec: the trim condition imposed by the
`ct.find_eqpt` call (§4.4, external library): gear and slope inputs held
at `4` and `0` (`iu=[1,2]`), the velocity output constrained to `20`
(`iy=[0]`, `y0[0]=20`), the reference input free, and both state
derivatives (vehicle velocity and controller state) equal to zero.  The
interconnection (§4.3) feeds the controller the error `vr − v` (negative
feedback plus external reference on the same port) and the vehicle the
controller output as throttle. -/
noncomputable def isCruiseTrim (xv xc vr : ℝ) : Prop :=
  vehicle_update 0 xv (controller_out xc (vr - xv)) 4 0 defaultParams =
    some 0 ∧
  controller_deriv xc (vr - xv) = 0 ∧
  xv = 20

/-! ### Helper lemmas -/

/-- For an integer gear `g ∈ {1..5}` (with `g - 1` a valid index into the
gear-ratio list), `vehicle_update` evaluates to `vehicle_accel` at the
ratio `alpha[g-1]`. -/
theorem vehicle_update_valid_gear (t x u0 u2 : ℝ) (p : VehicleParams)
    (g : ℕ) (h1 : 1 ≤ g) (hlen : g - 1 < p.alpha.length) :
    vehicle_update t x u0 (g : ℝ) u2 p =
      some (vehicle_accel x u0 u2 (p.alpha.get ⟨g - 1, hlen⟩) p) := by
  have hint : pyInt (g : ℝ) = (g : ℤ) := by
    simp [pyInt, Int.floor_natCast]
  have hidx : pyInt (g : ℝ) - 1 = ((g - 1 : ℕ) : ℤ) := by
    rw [hint]
    omega
  have hget : pyIdx p.alpha (pyInt (g : ℝ) - 1) =
      some (p.alpha.get ⟨g - 1, hlen⟩) := by
    rw [hidx]
    simp [pyIdx, List.get?_eq_get hlen]
  rw [vehicle_update, hget]
  rfl

/-- `clip01` stays in `[0, 1]`. -/
theorem clip01_mem (x : ℝ) : 0 ≤ clip01 x ∧ clip01 x ≤ 1 :=
  ⟨le_max_left 0 _, max_le (by norm_num) (min_le_right x 1)⟩

/-- `clip01` fixes points of `[0, 1]`. -/
theorem clip01_of_mem {x : ℝ} (h0 : 0 ≤ x) (h1 : x ≤ 1) : clip01 x = x := by
  rw [clip01, min_eq_left h1, max_eq_right h0]

/-- `clip01` is idempotent. -/
theorem clip01_idem (x : ℝ) : clip01 (clip01 x) = clip01 x :=
  clip01_of_mem (clip01_mem x).1 (clip01_mem x).2

/-- `clip01` is monotone. -/
theorem clip01_mono {x y : ℝ} (h : x ≤ y) : clip01 x ≤ clip01 y :=
  max_le_max le_rfl (min_le_min h le_rfl)

/-- `motor_torque` is nonnegative. -/
theorem motor_torque_nonneg (omega : ℝ) (p : VehicleParams) :
    0 ≤ motor_torque omega p := le_max_left 0 _

/-- `motor_torque` at `omega = 12 * 20` (gear 4 at 20 m/s), defaults. -/
theorem motor_torque_240 : motor_torque (12 * 20) defaultParams = 8626 / 49 := by
  show max 0 ((190 : ℝ) * (1 - 0.4 * ((12 * 20 : ℝ) / 420 - 1) ^ 2)) = 8626 / 49
  rw [max_eq_right (by norm_num)]
  norm_num

/-! ### Claims -/

/-- C1: for every velocity, input triple with integer gear `g ∈ {1..5}`
(with `g-1` indexing the gear-ratio list), and parameter set, the plant
derivative returns exactly
`(alpha[g-1] * motor_torque(alpha[g-1]*v) * clip(throttle,0,1)
  - m*g*sin(slope) - m*g*k*sign(v)) / m`. -/
theorem plant_derivative_formula (t v thr slope : ℝ) (p : VehicleParams)
    (g : ℕ) (h1 : 1 ≤ g) (h5 : g ≤ 5) (hlen : g - 1 < p.alpha.length) :
    vehicle_update t v thr (g : ℝ) slope p =
      some ((p.alpha.get ⟨g - 1, hlen⟩ *
          motor_torque (p.alpha.get ⟨g - 1, hlen⟩ * v) p * clip01 thr
        - p.m * p.g * Real.sin slope
        - p.m * p.g * p.k * copysign1 v) / p.m) := by
  rw [vehicle_update_valid_gear t v thr slope p g h1 hlen]
  unfold vehicle_accel
  ring_nf

/-- C1 witness: the formula at `v = 10`, throttle `1/2`, slope `0`,
gear `4`, default parameters (`alpha[3] = 12`). -/
theorem plant_derivative_formula_witness :
    1 ≤ 4 ∧ 4 ≤ 5 ∧ 4 - 1 < defaultParams.alpha.length ∧
    vehicle_update 0 10 (1 / 2) ((4 : ℕ) : ℝ) 0 defaultParams =
      some ((12 * motor_torque (12 * 10) defaultParams * clip01 (1 / 2)
        - defaultParams.m * defaultParams.g * Real.sin 0
        - defaultParams.m * defaultParams.g * defaultParams.k * copysign1 10) /
          defaultParams.m) := by
  have hlen : 4 - 1 < defaultParams.alpha.length := by
    simp [defaultParams]
  refine ⟨by norm_num, by norm_num, hlen, ?_⟩
  have h := plant_derivative_formula 0 10 (1 / 2) 0 defaultParams 4
    (by norm_num) (by norm_num) hlen
  rw [h]
  rfl

/-- C2: with the default parameters (`Tm = 190`, `omega_m = 420`,
`beta = 0.4`), `motor_torque` lies in `[0, Tm]` for every angular speed,
and equals exactly `Tm` at `omega = omega_m`. -/
theorem motor_torque_range :
    (∀ omega : ℝ, motor_torque omega defaultParams ∈ Set.Icc (0 : ℝ) 190) ∧
    motor_torque 420 defaultParams = 190 := by
  have hTm : defaultParams.Tm = 190 := rfl
  have hom : defaultParams.omega_m = 420 := rfl
  have hbeta : defaultParams.beta = 0.4 := rfl
  constructor
  · intro omega
    refine ⟨motor_torque_nonneg omega defaultParams, ?_⟩
    rw [motor_torque, hTm, hom, hbeta]
    apply max_le (by norm_num)
    nlinarith [sq_nonneg (omega / 420 - 1)]
  · rw [motor_torque, hTm, hom, hbeta]
    norm_num

/-- C5: the plant derivative at any throttle value equals the derivative
at the clamped throttle `clip(t, 0, 1)`: the clamp happens at evaluation
time and only there (the passed input itself is untouched). -/
theorem throttle_clamped_at_evaluation (t v thr ge slope : ℝ)
    (p : VehicleParams) :
    vehicle_update t v thr ge slope p =
      vehicle_update t v (clip01 thr) ge slope p := by
  unfold vehicle_update vehicle_accel
  rw [clip01_idem]

/-- C4: the friction term of the plant derivative uses `sign(0) = +1`
(`copysign(1, v)`): at `v = 0` the friction force enters as `+m*g*k`
exactly as it does for `v > 0`, and as `-m*g*k` for `v < 0`. -/
theorem friction_sign_convention (t thr slope v : ℝ) (p : VehicleParams)
    (g : ℕ) (h1 : 1 ≤ g) (h5 : g ≤ 5) (hlen : g - 1 < p.alpha.length) :
    (vehicle_update t 0 thr (g : ℝ) slope p =
      some ((p.alpha.get ⟨g - 1, hlen⟩ *
          motor_torque (p.alpha.get ⟨g - 1, hlen⟩ * 0) p * clip01 thr
        - p.m * p.g * Real.sin slope - p.m * p.g * p.k) / p.m)) ∧
    (0 < v → vehicle_update t v thr (g : ℝ) slope p =
      some ((p.alpha.get ⟨g - 1, hlen⟩ *
          motor_torque (p.alpha.get ⟨g - 1, hlen⟩ * v) p * clip01 thr
        - p.m * p.g * Real.sin slope - p.m * p.g * p.k) / p.m)) ∧
    (v < 0 → vehicle_update t v thr (g : ℝ) slope p =
      some ((p.alpha.get ⟨g - 1, hlen⟩ *
          motor_torque (p.alpha.get ⟨g - 1, hlen⟩ * v) p * clip01 thr
        - p.m * p.g * Real.sin slope + p.m * p.g * p.k) / p.m)) := by
  refine ⟨?_, fun hv => ?_, fun hv => ?_⟩
  · rw [vehicle_update_valid_gear t 0 thr slope p g h1 hlen]
    unfold vehicle_accel
    rw [copysign1, if_neg (by norm_num)]
    ring_nf
  · rw [vehicle_update_valid_gear t v thr slope p g h1 hlen]
    unfold vehicle_accel
    rw [copysign1, if_neg (not_lt.2 hv.le)]
    ring_nf
  · rw [vehicle_update_valid_gear t v thr slope p g h1 hlen]
    unfold vehicle_accel
    rw [copysign1, if_pos hv]
    ring_nf

/-- C4 witness: friction enters as `+m*g*k` at `v = 0` and `v = 1`, and as
`-m*g*k` at `v = -1`, for throttle `1/2`, slope `0`, gear `4`, defaults. -/
theorem friction_sign_convention_witness :
    1 ≤ 4 ∧ 4 ≤ 5 ∧ 4 - 1 < defaultParams.alpha.length ∧
    (vehicle_update 0 0 (1 / 2) ((4 : ℕ) : ℝ) 0 defaultParams =
      some ((12 * motor_torque (12 * 0) defaultParams * clip01 (1 / 2)
        - defaultParams.m * defaultParams.g * Real.sin 0
        - defaultParams.m * defaultParams.g * defaultParams.k) /
          defaultParams.m)) ∧
    (vehicle_update 0 1 (1 / 2) ((4 : ℕ) : ℝ) 0 defaultParams =
      some ((12 * motor_torque (12 * 1) defaultParams * clip01 (1 / 2)
        - defaultParams.m * defaultParams.g * Real.sin 0
        - defaultParams.m * defaultParams.g * defaultParams.k) /
          defaultParams.m)) ∧
    (vehicle_update 0 (-1) (1 / 2) ((4 : ℕ) : ℝ) 0 defaultParams =
      some ((12 * motor_torque (12 * (-1)) defaultParams * clip01 (1 / 2)
        - defaultParams.m * defaultParams.g * Real.sin 0
        + defaultParams.m * defaultParams.g * defaultParams.k) /
          defaultParams.m)) := by
  have hlen : 4 - 1 < defaultParams.alpha.length := by
    simp [defaultParams]
  have h1 := friction_sign_convention 0 (1 / 2) 0 1 defaultParams 4
    (by norm_num) (by norm_num) hlen
  have h2 := friction_sign_convention 0 (1 / 2) 0 (-1) defaultParams 4
    (by norm_num) (by norm_num) hlen
  refine ⟨by norm_num, by norm_num, hlen, ?_, ?_, ?_⟩
  · rw [h1.1]; rfl
  · rw [h1.2.1 (by norm_num)]; rfl
  · rw [h2.2.2 (by norm_num)]; rfl

/-- C3 evidence: the code does NOT reject out-of-range gears.  At gear `0`
the index `int(0) - 1 = -1` silently wraps (Python negative indexing) to the
LAST gear ratio `alpha[-1] = 10` and an acceleration is returned; at the
non-integer gear `2.5`, `int()` silently truncates to gear `2`. -/
theorem invalid_gear_not_rejected :
    vehicle_update 0 20 (1 / 2) 0 0 defaultParams =
      some (vehicle_accel 20 (1 / 2) 0 10 defaultParams) ∧
    vehicle_update 0 20 (1 / 2) (5 / 2) 0 defaultParams =
      vehicle_update 0 20 (1 / 2) 2 0 defaultParams := by
  constructor
  · have hi : pyInt (0 : ℝ) - 1 = -1 := by
      rw [pyInt, if_pos le_rfl]
      norm_num
    have hg : pyIdx defaultParams.alpha (-1) = some 10 := by
      rw [pyIdx, if_neg (by norm_num), if_pos (by norm_num [defaultParams])]
      rfl
    rw [vehicle_update, hi, hg]
    rfl
  · have h52 : pyInt (5 / 2 : ℝ) = 2 := by
      rw [pyInt, if_pos (by norm_num), Int.floor_eq_iff]
      norm_num
    have h2 : pyInt (2 : ℝ) = 2 := by
      rw [pyInt, if_pos (by norm_num), Int.floor_eq_iff]
      norm_num
    rw [vehicle_update, vehicle_update, h52, h2]

/-- C8: for fixed velocity, valid gear and parameters, the plant
derivative (the `vehicle_accel` value that `vehicle_update` wraps in
`some`) is a continuous function of the throttle input, and a continuous
function of the slope input, over all of ℝ. -/
theorem derivative_continuous (t v thr slope : ℝ) (p : VehicleParams)
    (g : ℕ) (h1 : 1 ≤ g) (h5 : g ≤ 5) (hlen : g - 1 < p.alpha.length) :
    (∀ u0 : ℝ, vehicle_update t v u0 (g : ℝ) slope p =
      some (vehicle_accel v u0 slope (p.alpha.get ⟨g - 1, hlen⟩) p)) ∧
    Continuous
      (fun u0 : ℝ => vehicle_accel v u0 slope (p.alpha.get ⟨g - 1, hlen⟩) p) ∧
    Continuous
      (fun s : ℝ => vehicle_accel v thr s (p.alpha.get ⟨g - 1, hlen⟩) p) := by
  have hclip : Continuous clip01 := by
    unfold clip01
    exact continuous_const.max (continuous_id.min continuous_const)
  refine ⟨fun u0 => vehicle_update_valid_gear t v u0 slope p g h1 hlen, ?_, ?_⟩
  · show Continuous (fun u0 : ℝ =>
      (p.alpha.get ⟨g - 1, hlen⟩ *
          motor_torque (p.alpha.get ⟨g - 1, hlen⟩ * v) p * clip01 u0
        - (p.m * p.g * Real.sin slope + p.m * p.g * p.k * copysign1 v)) / p.m)
    exact ((continuous_const.mul hclip).sub continuous_const).div_const _
  · show Continuous (fun s : ℝ =>
      (p.alpha.get ⟨g - 1, hlen⟩ *
          motor_torque (p.alpha.get ⟨g - 1, hlen⟩ * v) p * clip01 thr
        - (p.m * p.g * Real.sin s + p.m * p.g * p.k * copysign1 v)) / p.m)
    exact (continuous_const.sub
      ((continuous_const.mul Real.continuous_sin).add continuous_const)).div_const _

/-- C8 witness: continuity in throttle and in slope at velocity `10`,
gear `4` (`alpha[3] = 12`), default parameters. -/
theorem derivative_continuous_witness :
    1 ≤ 4 ∧ 4 ≤ 5 ∧ 4 - 1 < defaultParams.alpha.length ∧
    vehicle_update 0 10 (1 / 2) ((4 : ℕ) : ℝ) 0 defaultParams =
      some (vehicle_accel 10 (1 / 2) 0 12 defaultParams) ∧
    Continuous (fun u0 : ℝ => vehicle_accel 10 u0 0 12 defaultParams) ∧
    Continuous (fun s : ℝ => vehicle_accel 10 (1 / 2) s 12 defaultParams) := by
  have hlen : 4 - 1 < defaultParams.alpha.length := by
    simp [defaultParams]
  have h := derivative_continuous 0 10 (1 / 2) 0 defaultParams 4
    (by norm_num) (by norm_num) hlen
  exact ⟨by norm_num, by norm_num, hlen, h.1 (1 / 2), h.2.1, h.2.2⟩

/-- C9: the plant derivative and torque model are deterministic functions
of their arguments alone: evaluations at equal state, input and parameter
values are equal (there is no internal or mutable state; in this pure
embedding no call can alter the parameter record, the state, or the
input, which is why both functions could be defined as plain functions
of their arguments). -/
theorem plant_deterministic (t v thr ge slope omega : ℝ)
    (p q : VehicleParams) (hm : p.m = q.m) (hg : p.g = q.g) (hk : p.k = q.k)
    (ha : p.alpha = q.alpha) (hT : p.Tm = q.Tm) (hom : p.omega_m = q.omega_m)
    (hb : p.beta = q.beta) :
    vehicle_update t v thr ge slope p = vehicle_update t v thr ge slope q ∧
    motor_torque omega p = motor_torque omega q := by
  have hpq : p = q := by
    cases p
    cases q
    simp_all
  subst hpq
  exact ⟨rfl, rfl⟩

/-- C9 witness: two evaluations at identical concrete arguments agree. -/
theorem plant_deterministic_witness :
    defaultParams.m = defaultParams.m ∧
    defaultParams.alpha = defaultParams.alpha ∧
    vehicle_update 0 10 (1 / 2) 4 0 defaultParams =
      vehicle_update 0 10 (1 / 2) 4 0 defaultParams ∧
    motor_torque 240 defaultParams = motor_torque 240 defaultParams := by
  have h := plant_deterministic 0 10 (1 / 2) 4 0 240
    defaultParams defaultParams rfl rfl rfl rfl rfl rfl rfl
  exact ⟨rfl, rfl, h.1, h.2⟩

/-- C10: with the default parameters and a valid gear, the plant
derivative is monotone nondecreasing in the throttle input: the engine
force is a nonnegative gear ratio times a nonnegative torque times the
monotone clamp, and no other term depends on throttle. -/
theorem derivative_monotone_in_throttle (t v slope : ℝ) (g : ℕ)
    (h1 : 1 ≤ g) (h5 : g ≤ 5) (t1 t2 : ℝ) (h12 : t1 ≤ t2) :
    ∃ d1 d2,
      vehicle_update t v t1 (g : ℝ) slope defaultParams = some d1 ∧
      vehicle_update t v t2 (g : ℝ) slope defaultParams = some d2 ∧
      d1 ≤ d2 := by
  have hlen : g - 1 < defaultParams.alpha.length := by
    have : defaultParams.alpha.length = 5 := by simp [defaultParams]
    omega
  refine ⟨_, _, vehicle_update_valid_gear t v t1 slope defaultParams g h1 hlen,
    vehicle_update_valid_gear t v t2 slope defaultParams g h1 hlen, ?_⟩
  have hA : 0 < defaultParams.alpha.get ⟨g - 1, hlen⟩ := by
    have hmem : defaultParams.alpha.get ⟨g - 1, hlen⟩ ∈
        ([40, 25, 16, 12, 10] : List ℝ) :=
      List.get_mem defaultParams.alpha (g - 1) hlen
    simp only [List.mem_cons, List.not_mem_nil, or_false] at hmem
    rcases hmem with h | h | h | h | h
    all_goals rw [h]
    all_goals norm_num
  set A := defaultParams.alpha.get ⟨g - 1, hlen⟩ with hAdef
  have hF : A * motor_torque (A * v) defaultParams * clip01 t1 ≤
      A * motor_torque (A * v) defaultParams * clip01 t2 :=
    mul_le_mul_of_nonneg_left (clip01_mono h12)
      (mul_nonneg hA.le (motor_torque_nonneg (A * v) defaultParams))
  show vehicle_accel v t1 slope A defaultParams ≤
    vehicle_accel v t2 slope A defaultParams
  have hm : (0 : ℝ) < defaultParams.m := by norm_num [defaultParams]
  unfold vehicle_accel
  exact div_le_div_of_nonneg_right (by linarith) hm.le

/-- C10 witness: monotonicity at velocity `10`, slope `0`, gear `4`,
throttle values `0 ≤ 1`. -/
theorem derivative_monotone_in_throttle_witness :
    1 ≤ 4 ∧ 4 ≤ 5 ∧ (0 : ℝ) ≤ 1 ∧
    ∃ d1 d2,
      vehicle_update 0 10 0 ((4 : ℕ) : ℝ) 0 defaultParams = some d1 ∧
      vehicle_update 0 10 1 ((4 : ℕ) : ℝ) 0 defaultParams = some d2 ∧
      d1 ≤ d2 :=
  ⟨by norm_num, by norm_num, by norm_num,
    derivative_monotone_in_throttle 0 10 0 4 (by norm_num) (by norm_num) 0 1
      (by norm_num)⟩

/-- C6: the scripted scenario uses 151 equally spaced grid points over
`[0, 25]` (first point `0`, last point `25`, constant spacing `25/150`),
constant reference velocity `20`, constant gear `4`, and the slope signal
is `0` for `t ≤ 5`, `(4/180)·π·(t−5)` for `5 < t ≤ 6`, and `(4/180)·π`
for `t > 6`, at every grid time `t`. -/
theorem scenario_signals :
    T ⟨0, by norm_num⟩ = 0 ∧ T ⟨150, by norm_num⟩ = 25 ∧
    (∀ i : Fin 150, T i.succ - T i.castSucc = 25 / 150) ∧
    (∀ i, vref i = 20) ∧ (∀ i, gear i = 4) ∧
    (∀ i : Fin 151,
      (T i ≤ 5 → theta_hill i = 0) ∧
      (5 < T i → T i ≤ 6 → theta_hill i = 4 / 180 * Real.pi * (T i - 5)) ∧
      (6 < T i → theta_hill i = 4 / 180 * Real.pi)) := by
  refine ⟨by norm_num [T], by norm_num [T], fun i => ?_, fun i => rfl,
    fun i => rfl, fun i => ⟨fun h => ?_, fun h5 h6 => ?_, fun h6 => ?_⟩⟩
  · rw [T, T, Fin.val_succ, Fin.coe_castSucc]
    push_cast
    ring
  · rw [theta_hill, if_pos h]
  · rw [theta_hill, if_neg (not_le.2 h5), if_pos h6]
  · rw [theta_hill, if_neg (not_le.2 (by linarith)), if_neg (not_le.2 h6)]

/-- C6 witness: at grid point `i = 33` the time is `5.5`, inside the ramp,
and the slope is `(4/180)·π·(5.5 − 5)`. -/
theorem scenario_signals_witness :
    T ⟨33, by norm_num⟩ = 11 / 2 ∧ 5 < T ⟨33, by norm_num⟩ ∧
    T ⟨33, by norm_num⟩ ≤ 6 ∧
    theta_hill ⟨33, by norm_num⟩ =
      4 / 180 * Real.pi * (T ⟨33, by norm_num⟩ - 5) := by
  have ht : T ⟨33, by norm_num⟩ = 11 / 2 := by
    rw [T]
    norm_num
  refine ⟨ht, by rw [ht]; norm_num, by rw [ht]; norm_num, ?_⟩
  exact ((scenario_signals.2.2.2.2.2 ⟨33, by norm_num⟩).2.1
    (by rw [ht]; norm_num) (by rw [ht]; norm_num))

/-- C7: every point satisfying the trim condition of the flat-road,
gear-4, `vref = 20` scenario has velocity output exactly `20`, vehicle
acceleration exactly `0` (the unconstrained state derivative vanishes,
well within any solver tolerance), and moreover its throttle command is
uniquely determined: `2401/51756 ≈ 0.0464`. -/
theorem trim_point (xv xc vr : ℝ) (h : isCruiseTrim xv xc vr) :
    xv = 20 ∧
    vehicle_update 0 xv (controller_out xc (vr - xv)) 4 0 defaultParams =
      some 0 ∧
    controller_out xc (vr - xv) = 2401 / 51756 := by
  obtain ⟨hacc, hctl, hxv⟩ := h
  subst hxv
  refine ⟨rfl, hacc, ?_⟩
  set u := controller_out xc (vr - 20) with hudef
  have hlen : 4 - 1 < defaultParams.alpha.length := by
    simp [defaultParams]
  rw [show (4 : ℝ) = ((4 : ℕ) : ℝ) by norm_num,
    vehicle_update_valid_gear 0 20 u 0 defaultParams 4 (by norm_num) hlen]
    at hacc
  have hzero : vehicle_accel 20 u 0 12 defaultParams = 0 :=
    Option.some_inj.mp hacc
  have hclip : clip01 u = 2401 / 51756 := by
    have h2 : (12 * motor_torque (12 * 20) defaultParams * clip01 u -
        (defaultParams.m * defaultParams.g * Real.sin 0 +
          defaultParams.m * defaultParams.g * defaultParams.k *
            copysign1 20)) / defaultParams.m = 0 := hzero
    rw [motor_torque_240, Real.sin_zero, copysign1, if_neg (by norm_num)]
      at h2
    have hm : defaultParams.m = 1000 := rfl
    have hg : defaultParams.g = 9.8 := rfl
    have hk : defaultParams.k = 0.01 := rfl
    rw [hm, hg, hk] at h2
    field_simp at h2
    linarith
  rcases le_or_lt u 0 with h0 | h0
  · exfalso
    rw [clip01, min_eq_left (h0.trans (by norm_num)), max_eq_left h0]
      at hclip
    norm_num at hclip
  · rcases le_or_lt 1 u with h1 | h1
    · exfalso
      rw [clip01, min_eq_right h1, max_eq_right (by norm_num)] at hclip
      norm_num at hclip
    · rw [← hclip, clip01_of_mem h0.le h1.le]

/-- C7 witness: the trim condition is satisfiable — the explicit point
`(xv, xc, vref) = (20, 12005/25878, 20 + 2401/2587800)` is a trim of the
closed loop, and the theorem applies to it. -/
theorem trim_point_witness :
    isCruiseTrim 20 (12005 / 25878) (20 + 2401 / 2587800) ∧
    (20 : ℝ) = 20 ∧
    vehicle_update 0 20
      (controller_out (12005 / 25878) ((20 + 2401 / 2587800) - 20)) 4 0
      defaultParams = some 0 ∧
    controller_out (12005 / 25878) ((20 + 2401 / 2587800) - 20) =
      2401 / 51756 := by
  have hu : controller_out (12005 / 25878) ((20 + 2401 / 2587800) - 20) =
      2401 / 51756 := by
    rw [controller_out, Kp, Ki]
    norm_num
  have hlen : 4 - 1 < defaultParams.alpha.length := by
    simp [defaultParams]
  have htrim : isCruiseTrim 20 (12005 / 25878) (20 + 2401 / 2587800) := by
    refine ⟨?_, ?_, rfl⟩
    · rw [hu, show (4 : ℝ) = ((4 : ℕ) : ℝ) by norm_num,
        vehicle_update_valid_gear 0 20 (2401 / 51756) 0 defaultParams 4
          (by norm_num) hlen]
      congr 1
      show (12 * motor_torque (12 * 20) defaultParams * clip01 (2401 / 51756)
        - (defaultParams.m * defaultParams.g * Real.sin 0 +
            defaultParams.m * defaultParams.g * defaultParams.k *
              copysign1 20)) / defaultParams.m = 0
      rw [motor_torque_240, Real.sin_zero, copysign1, if_neg (by norm_num),
        clip01_of_mem (by norm_num) (by norm_num)]
      have hm : defaultParams.m = 1000 := rfl
      have hg : defaultParams.g = 9.8 := rfl
      have hk : defaultParams.k = 0.01 := rfl
      rw [hm, hg, hk]
      norm_num
    · rw [controller_deriv, Kp, Ki]
      norm_num
  exact ⟨htrim, (trim_point _ _ _ htrim).1, (trim_point _ _ _ htrim).2.1,
    (trim_point _ _ _ htrim).2.2⟩

end CruiseControl
